import Mathlib

/-!
Shallow embedding of `src/Servers.py`, a small Flask mock backend with two
in-memory stores (`users`, `sessions`) and a handful of route handlers.

Modelling conventions:
* Wall-clock time is an abstract tick counter threaded through the server
  state; each `datetime.now()` call in the source reads the counter and
  advances it by one, so later calls read strictly larger values.
* `datetime.now().timestamp()` and `.isoformat()` renderings are both
  modelled by the decimal rendering `decStr` of the tick value.
* JSON request bodies are modelled as string-valued field lists (the code
  only reads the string identifier fields `user_id` / `device_id`); a body
  may also be absent/non-JSON (`Body.noJson`, Flask's `request.is_json`
  false) or carry a JSON content type that fails to parse
  (`Body.malformed`, where Flask's `request.get_json()` aborts with 400).
* Python dict assignment is modelled by consing the new binding in front;
  `List.lookup` returns the newest binding, matching dict lookup.
* `str.replace('Bearer ', '')` removes every non-overlapping occurrence of
  the pattern, scanning left to right; `removeBearer` mirrors that.
-/

namespace Servers

/-- JSON values appearing in response bodies. -/
inductive Json where
  | null
  | bool (b : Bool)
  | num (n : Int)
  | str (s : String)
  | arr (elems : List Json)
  | obj (fields : List (String × Json))

/-- Python truthiness of a JSON value, as tested by `if data:` in
`create_response`. -/
def truthy : Json → Bool
  | .null => false
  | .bool b => b
  | .num n => n != 0
  | .str s => !s.isEmpty
  | .arr l => !l.isEmpty
  | .obj l => !l.isEmpty

/-- Decimal digits of `n`, most significant first, with structural fuel so
the kernel can evaluate it. `fuel ≥ n` renders all digits. -/
def decDigits (fuel n : Nat) : List Nat :=
  match fuel with
  | 0 => []
  | fuel + 1 => if n = 0 then [] else decDigits fuel (n / 10) ++ [n % 10]

/-- Decimal rendering of a natural number, modelling the interpolation of
timestamp values into strings by the source. -/
def decStr (n : Nat) : String :=
  if n = 0 then "0" else String.mk ((decDigits (n + 1) n).map Nat.digitChar)

/-- `dict.get(k, d)` on a string-valued record. -/
def getD (fields : List (String × String)) (k d : String) : String :=
  (List.lookup k fields).getD d

/-- A stored user record (the dict created at first login). -/
structure UserRec where
  user_id : String
  device_id : String
  created_at : String
  level : Nat
  coins : Nat
  yokai : List String
deriving DecidableEq

/-- A stored session record (the dict created at each login). -/
structure SessionRec where
  user_id : String
  device_id : String
  created_at : String
deriving DecidableEq

/-- The process-wide mutable state: the `users` and `sessions` dicts plus
the abstract clock. -/
structure ServerState where
  users : List (String × UserRec)
  sessions : List (String × SessionRec)
  clock : Nat
deriving DecidableEq

/-- The state at process start: both dicts empty. -/
def initState : ServerState := { users := [], sessions := [], clock := 0 }

/-- Wire form of a user record, as serialized into responses. -/
def userJson (u : UserRec) : Json :=
  .obj [("user_id", .str u.user_id), ("device_id", .str u.device_id),
        ("created_at", .str u.created_at), ("level", .num u.level),
        ("coins", .num u.coins), ("yokai", .arr (u.yokai.map .str))]

/-- Wire form of a session record. -/
def sessionJson (s : SessionRec) : Json :=
  .obj [("user_id", .str s.user_id), ("device_id", .str s.device_id),
        ("created_at", .str s.created_at)]

/-- HTTP methods the catch-all route is registered for. -/
inductive Method where
  | GET | POST | PUT | DELETE | PATCH
deriving DecidableEq

/-- Request body as seen by `login`: no JSON content type, a JSON content
type whose payload fails to parse, or a parsed JSON object. -/
inductive Body where
  | noJson
  | malformed
  | json (fields : List (String × String))
deriving DecidableEq

/-- An HTTP request: method, path (with leading slash), body, and the
`Authorization` header value (`""` when the header is missing). -/
structure Request where
  method : Method
  path : String
  body : Body
  auth : String
deriving DecidableEq

/-- An HTTP response: status code and the JSON envelope's fields. -/
structure Resp where
  status : Nat
  fields : List (String × Json)

/-- `create_response(success, data, message)`: the envelope dict, built at
clock value `now` (the `datetime.now().isoformat()` call). The `data` key
is added only when `data` is truthy (`if data:`). -/
def create_response (success : Bool) (data : Json) (message : String)
    (now : Nat) : List (String × Json) :=
  [("success", .bool success), ("timestamp", .str (decStr now)),
   ("message", .str message)] ++
    (if truthy data then [("data", data)] else [])

/-- `return create_response(...)` with an explicit HTTP status; consumes
one clock tick for the timestamp. -/
def respond (success : Bool) (data : Json) (message : String) (status : Nat)
    (s : ServerState) : ServerState × Resp :=
  ({ s with clock := s.clock + 1 },
   { status := status, fields := create_response success data message s.clock })

/-- The `success` field of a response envelope. -/
def Resp.successField (r : Resp) : Option Json := List.lookup "success" r.fields

/-- The `data` field of a response envelope. -/
def Resp.dataField (r : Resp) : Option Json := List.lookup "data" r.fields

/-- The `message` field of a response envelope. -/
def Resp.messageField (r : Resp) : Option Json := List.lookup "message" r.fields

/-- Python's `s.replace('Bearer ', '')` on the character list of `s`:
scan left to right, removing each non-overlapping occurrence of the
seven-character pattern. -/
def removeBearer : List Char → List Char
  | 'B' :: 'e' :: 'a' :: 'r' :: 'e' :: 'r' :: ' ' :: rest => removeBearer rest
  | c :: rest => c :: removeBearer rest
  | [] => []

/-- Whether the pattern `Bearer ` occurs anywhere in the character list. -/
def hasBearer : List Char → Bool
  | 'B' :: 'e' :: 'a' :: 'r' :: 'e' :: 'r' :: ' ' :: _ => true
  | _ :: rest => hasBearer rest
  | [] => false

/-- `request.headers.get('Authorization', '').replace('Bearer ', '')`, the
token-extraction expression shared by `session` and `user_profile`. -/
def extractToken (auth : String) : String := String.mk (removeBearer auth.data)

/-- The session token minted by `login` for user `uid` at clock `t`:
`f"session_{user_id}_{datetime.now().timestamp()}"`. -/
def mkToken (uid : String) (t : Nat) : String :=
  "session_" ++ uid ++ "_" ++ decStr t

/-- Body of `login` once a JSON object `data` (possibly the `{}` default)
is in hand: mint a session, create the user if absent, respond with the
session token and the stored user record. -/
def loginCore (data : List (String × String)) (s : ServerState) :
    ServerState × Resp :=
  let device_id := getD data "device_id" "unknown"
  let user_id := getD data "user_id" device_id
  let session_token := mkToken user_id s.clock
  let s1 : ServerState :=
    { s with
      sessions := (session_token,
        { user_id := user_id, device_id := device_id,
          created_at := decStr (s.clock + 1) }) :: s.sessions,
      clock := s.clock + 2 }
  let s2 : ServerState :=
    if (List.lookup user_id s1.users).isSome then s1
    else
      { s1 with
        users := (user_id,
          { user_id := user_id, device_id := device_id,
            created_at := decStr s1.clock, level := 1, coins := 1000,
            yokai := [] }) :: s1.users,
        clock := s1.clock + 1 }
  let user : Json :=
    match List.lookup user_id s2.users with
    | some u => userJson u
    | none => Json.null
  respond true
    (.obj [("session_token", .str session_token), ("user", user)])
    "Login successful" 200 s2

/-- The `login` handler. A body with a JSON content type that fails to
parse makes Flask's `request.get_json()` abort the request with a bare
400 error before the handler body runs; otherwise
`data = request.get_json() if request.is_json else {}`. -/
def login (b : Body) (s : ServerState) : ServerState × Resp :=
  match b with
  | .malformed => (s, { status := 400, fields := [] })
  | .noJson => loginCore [] s
  | .json fields => loginCore fields s

/-- The `session` handler (session check). -/
def session (auth : String) (s : ServerState) : ServerState × Resp :=
  let session_token := extractToken auth
  match List.lookup session_token s.sessions with
  | some session_data =>
    let user_data : Json :=
      match List.lookup session_data.user_id s.users with
      | some u => userJson u
      | none => Json.obj []
    respond true
      (.obj [("session", sessionJson session_data), ("user", user_data)])
      "" 200 s
  | none => respond false .null "Invalid session" 401 s

/-- The `user_profile` handler. -/
def user_profile (auth : String) (s : ServerState) : ServerState × Resp :=
  let session_token := extractToken auth
  match List.lookup session_token s.sessions with
  | some session_data =>
    let user_data : Json :=
      match List.lookup session_data.user_id s.users with
      | some u => userJson u
      | none => Json.obj []
    respond true user_data "" 200 s
  | none => respond false .null "Unauthorized" 401 s

/-- The root route handler. -/
def home (s : ServerState) : ServerState × Resp :=
  respond true .null "Wibble Wobble Private Server - Running" 200 s

/-- The `/api/health` handler. -/
def health (s : ServerState) : ServerState × Resp :=
  respond true .null "Server is running" 200 s

/-- The `game_start` handler: fixed stub payload. -/
def game_start (s : ServerState) : ServerState × Resp :=
  respond true (.obj [("stage_id", .num 1), ("difficulty", .str "normal")])
    "" 200 s

/-- The `catch_all` handler; `path` is the request path without its
leading slash, as captured by the `/<path:path>` rule. Note `data={}` is
falsy, so the envelope carries no `data` field. -/
def catch_all (path : String) (s : ServerState) : ServerState × Resp :=
  respond true (.obj [])
    ("Endpoint /" ++ path ++ " - under development") 200 s

/-- Whether `(method, path)` matches a named route registration. -/
def namedMatch (m : Method) (p : String) : Bool :=
  (p == "/" && (m == .GET || m == .POST))
  || (p == "/api/health" && m == .GET)
  || ((p == "/api/login" || p == "/api/auth/login" || p == "/login")
      && m == .POST)
  || ((p == "/api/session" || p == "/session")
      && (m == .POST || m == .GET))
  || ((p == "/api/game/start" || p == "/game/start") && m == .POST)
  || ((p == "/api/user/profile" || p == "/user/profile") && m == .GET)

/-- Route dispatch over the registered rules. The `/<path:path>` converter
cannot match the bare root path, so an unnamed method on `/` falls through
to the framework's 405 handling (`none`). -/
def dispatch (r : Request) (s : ServerState) : Option (ServerState × Resp) :=
  if r.path == "/" && (r.method == .GET || r.method == .POST) then
    some (home s)
  else if r.path == "/api/health" && r.method == .GET then
    some (health s)
  else if (r.path == "/api/login" || r.path == "/api/auth/login"
      || r.path == "/login") && r.method == .POST then
    some (login r.body s)
  else if (r.path == "/api/session" || r.path == "/session")
      && (r.method == .POST || r.method == .GET) then
    some (session r.auth s)
  else if (r.path == "/api/game/start" || r.path == "/game/start")
      && r.method == .POST then
    some (game_start s)
  else if (r.path == "/api/user/profile" || r.path == "/user/profile")
      && r.method == .GET then
    some (user_profile r.auth s)
  else if r.path != "/" then
    some (catch_all (r.path.drop 1) s)
  else
    none

/-- States reachable from process start by complete handler calls. -/
inductive Reachable : ServerState → Prop where
  | init : Reachable initState
  | step {s s' : ServerState} {r : Request} {resp : Resp} :
      Reachable s → dispatch r s = some (s', resp) → Reachable s'

/-- Every stored user record carries the key it is stored under as its
`user_id` field. -/
def StoreWF (users : List (String × UserRec)) : Prop :=
  ∀ k u, List.lookup k users = some u → u.user_id = k

/-- Every stored session refers to a user present in the user store. -/
def SessionsOK (s : ServerState) : Prop :=
  ∀ tok sess, List.lookup tok s.sessions = some sess →
    ∃ u, List.lookup sess.user_id s.users = some u

/-! ### Properties of the decimal rendering -/

/-- Numeric value of a big-endian decimal digit list. -/
def decVal (l : List Nat) : Nat := l.foldl (fun a d => 10 * a + d) 0

theorem decVal_append (l : List Nat) (d : Nat) :
    decVal (l ++ [d]) = 10 * decVal l + d := by
  simp [decVal, List.foldl_append]

theorem decVal_decDigits : ∀ fuel n, n ≤ fuel → decVal (decDigits fuel n) = n := by
  intro fuel
  induction fuel with
  | zero =>
    intro n h
    have h0 : n = 0 := Nat.le_zero.mp h
    subst h0; rfl
  | succ fuel ih =>
    intro n h
    by_cases hn : n = 0
    · subst hn; rfl
    · have hdiv : n / 10 < n := Nat.div_lt_self (Nat.pos_of_ne_zero hn) (by norm_num)
      have h10 : n / 10 ≤ fuel := by omega
      simp only [decDigits]
      rw [if_neg hn, decVal_append, ih _ h10]
      omega

theorem decDigits_lt : ∀ fuel n d, d ∈ decDigits fuel n → d < 10 := by
  intro fuel
  induction fuel with
  | zero => intro n d h; simp [decDigits] at h
  | succ fuel ih =>
    intro n d h
    simp only [decDigits] at h
    by_cases hn : n = 0
    · rw [if_pos hn] at h; simp at h
    · rw [if_neg hn] at h
      rcases List.mem_append.mp h with h1 | h1
      · exact ih _ _ h1
      · have hd : d = n % 10 := by simpa using h1
        have := Nat.mod_lt n (show 0 < 10 by norm_num)
        omega

theorem digitChar_inj {a b : Nat} (ha : a < 10) (hb : b < 10) :
    Nat.digitChar a = Nat.digitChar b → a = b := by
  interval_cases a <;> interval_cases b <;> decide

theorem map_digitChar_inj : ∀ l1 l2 : List Nat, (∀ d ∈ l1, d < 10) →
    (∀ d ∈ l2, d < 10) → l1.map Nat.digitChar = l2.map Nat.digitChar →
    l1 = l2 := by
  intro l1
  induction l1 with
  | nil =>
    intro l2 _ _ h
    cases l2 with
    | nil => rfl
    | cons b l2' => simp at h
  | cons a l ih =>
    intro l2 h1 h2 h
    cases l2 with
    | nil => simp at h
    | cons b l2' =>
      simp only [List.map_cons, List.cons.injEq] at h
      have hab := digitChar_inj (h1 a (by simp)) (h2 b (by simp)) h.1
      rw [hab, ih l2' (fun d hd => h1 d (by simp [hd]))
        (fun d hd => h2 d (by simp [hd])) h.2]

/-- `String.data` determines the string. -/
theorem data_inj : ∀ {s t : String}, s.data = t.data → s = t := by
  intro s t h
  cases s; cases t
  exact congrArg String.mk h

theorem decStr_inj : ∀ {m n : Nat}, decStr m = decStr n → m = n := by
  intro m n h
  unfold decStr at h
  by_cases hm : m = 0 <;> by_cases hn : n = 0
  · omega
  · rw [if_pos hm, if_neg hn] at h
    have hd : List.map Nat.digitChar [0] =
        (decDigits (n + 1) n).map Nat.digitChar := congrArg String.data h
    have h0 : ([0] : List Nat) = decDigits (n + 1) n :=
      map_digitChar_inj _ _ (by simp) (fun d hd => decDigits_lt _ _ _ hd) hd
    have hv := congrArg decVal h0
    rw [decVal_decDigits (n + 1) n (by omega)] at hv
    simp [decVal] at hv
    omega
  · rw [if_neg hm, if_pos hn] at h
    have hd : (decDigits (m + 1) m).map Nat.digitChar =
        List.map Nat.digitChar [0] := congrArg String.data h
    have h0 : decDigits (m + 1) m = ([0] : List Nat) :=
      map_digitChar_inj _ _ (fun d hd => decDigits_lt _ _ _ hd) (by simp) hd
    have hv := congrArg decVal h0
    rw [decVal_decDigits (m + 1) m (by omega)] at hv
    simp [decVal] at hv
    omega
  · rw [if_neg hm, if_neg hn] at h
    have hd : (decDigits (m + 1) m).map Nat.digitChar =
        (decDigits (n + 1) n).map Nat.digitChar := by
      injection h
    have h0 := map_digitChar_inj _ _ (fun d hd => decDigits_lt _ _ _ hd)
      (fun d hd => decDigits_lt _ _ _ hd) hd
    have hv := congrArg decVal h0
    rwa [decVal_decDigits (m + 1) m (by omega),
      decVal_decDigits (n + 1) n (by omega)] at hv

/-- Two tokens minted for the same user at different clock values differ. -/
theorem mkToken_inj_t {u : String} {t1 t2 : Nat}
    (h : mkToken u t1 = mkToken u t2) : t1 = t2 := by
  unfold mkToken at h
  have hd := congrArg String.data h
  simp only [String.data_append, List.append_assoc] at hd
  exact decStr_inj (data_inj
    (List.append_cancel_left (List.append_cancel_left
      (List.append_cancel_left hd))))

/-! ### Properties of Bearer-stripping -/

theorem removeBearer_of_not_hasBearer :
    ∀ l, hasBearer l = false → removeBearer l = l := by
  intro l h
  induction l using removeBearer.induct with
  | case1 rest ih => simp [hasBearer] at h
  | case2 c rest h2 ih =>
    rw [removeBearer.eq_2 c rest h2]
    rw [hasBearer.eq_2 c rest h2] at h
    rw [ih h]
  | case3 => rfl

/-- A header with no occurrence of the pattern is left unchanged. -/
theorem extractToken_of_not_hasBearer {t : String}
    (h : hasBearer t.data = false) : extractToken t = t := by
  unfold extractToken
  rw [removeBearer_of_not_hasBearer _ h]

/-- Stripping `Bearer ` ++ `t` yields `t` when `t` itself contains no
occurrence of the pattern. -/
theorem extractToken_bearer_prefix {t : String}
    (h : hasBearer t.data = false) : extractToken ("Bearer " ++ t) = t := by
  unfold extractToken
  rw [String.data_append]
  have hb : "Bearer ".data ++ t.data =
      'B' :: 'e' :: 'a' :: 'r' :: 'e' :: 'r' :: ' ' :: t.data := rfl
  rw [hb, removeBearer.eq_1, removeBearer_of_not_hasBearer _ h]

/-! ### Envelope lemmas -/

theorem lookup_success_create_response (succ : Bool) (d : Json) (msg : String)
    (t : Nat) :
    List.lookup "success" (create_response succ d msg t) = some (.bool succ) :=
  rfl

theorem lookup_message_create_response (succ : Bool) (d : Json) (msg : String)
    (t : Nat) :
    List.lookup "message" (create_response succ d msg t) = some (.str msg) :=
  rfl

theorem lookup_data_create_response (succ : Bool) (d : Json) (msg : String)
    (t : Nat) :
    List.lookup "data" (create_response succ d msg t) =
      if truthy d then some d else none := by
  by_cases h : truthy d <;> simp [create_response, h, List.lookup]

theorem respond_fst (succ : Bool) (d : Json) (msg : String) (st : Nat)
    (s : ServerState) :
    (respond succ d msg st s).1 = { s with clock := s.clock + 1 } := rfl

theorem respond_status (succ : Bool) (d : Json) (msg : String) (st : Nat)
    (s : ServerState) : (respond succ d msg st s).2.status = st := rfl

theorem respond_successField (succ : Bool) (d : Json) (msg : String) (st : Nat)
    (s : ServerState) :
    (respond succ d msg st s).2.successField = some (.bool succ) := rfl

theorem respond_messageField (succ : Bool) (d : Json) (msg : String) (st : Nat)
    (s : ServerState) :
    (respond succ d msg st s).2.messageField = some (.str msg) := rfl

theorem respond_dataField (succ : Bool) (d : Json) (msg : String) (st : Nat)
    (s : ServerState) :
    (respond succ d msg st s).2.dataField =
      if truthy d then some d else none :=
  lookup_data_create_response succ d msg s.clock

/-! ### Login characterization -/

/-- The `user_id` value `login` derives from a request body. -/
def bodyUserId : Body → String
  | .json fields => getD fields "user_id" (getD fields "device_id" "unknown")
  | _ => "unknown"

/-- The `device_id` value `login` derives from a request body. -/
def bodyDeviceId : Body → String
  | .json fields => getD fields "device_id" "unknown"
  | _ => "unknown"

/-- Helper: lookup at the key just inserted. -/
theorem lookup_cons_self {β : Type} (k : String) (v : β)
    (l : List (String × β)) : List.lookup k ((k, v) :: l) = some v := by
  simp [List.lookup]

/-- Helper: lookup skips a binding with a different key. -/
theorem lookup_cons_ne {β : Type} {k a : String} (h : k ≠ a) (v : β)
    (l : List (String × β)) :
    List.lookup k ((a, v) :: l) = List.lookup k l := by
  have hb : (k == a) = false := beq_eq_false_iff_ne.mpr h
  simp [List.lookup, hb]

/-- The result of `loginCore` as a function of the prior record stored
under the derived `user_id`, fully inlined for rewriting. -/
def loginResult (did uid : String) (old : Option UserRec)
    (s : ServerState) : ServerState × Resp :=
  match old with
  | some u =>
    ({ users := s.users,
       sessions := (mkToken uid s.clock, ⟨uid, did, decStr (s.clock + 1)⟩)
         :: s.sessions,
       clock := s.clock + 3 },
     { status := 200,
       fields := create_response true
         (.obj [("session_token", .str (mkToken uid s.clock)),
           ("user", userJson u)])
         "Login successful" (s.clock + 2) })
  | none =>
    ({ users := (uid, ⟨uid, did, decStr (s.clock + 2), 1, 1000, []⟩)
         :: s.users,
       sessions := (mkToken uid s.clock, ⟨uid, did, decStr (s.clock + 1)⟩)
         :: s.sessions,
       clock := s.clock + 4 },
     { status := 200,
       fields := create_response true
         (.obj [("session_token", .str (mkToken uid s.clock)),
           ("user", userJson ⟨uid, did, decStr (s.clock + 2), 1, 1000, []⟩)])
         "Login successful" (s.clock + 3) })

theorem loginCore_eq (data : List (String × String)) (s : ServerState) :
    loginCore data s =
      loginResult (getD data "device_id" "unknown")
        (getD data "user_id" (getD data "device_id" "unknown"))
        (List.lookup (getD data "user_id" (getD data "device_id" "unknown"))
          s.users) s := by
  unfold loginCore loginResult
  cases h : List.lookup (getD data "user_id" (getD data "device_id" "unknown"))
      s.users with
  | some u => simp [h, respond]
  | none => simp [h, respond, List.lookup]

theorem login_eq {b : Body} (hb : b ≠ .malformed) (s : ServerState) :
    login b s =
      loginResult (bodyDeviceId b) (bodyUserId b)
        (List.lookup (bodyUserId b) s.users) s := by
  cases b with
  | malformed => exact absurd rfl hb
  | noJson => exact loginCore_eq [] s
  | json fields => exact loginCore_eq fields s

theorem login_sessions {b : Body} (hb : b ≠ .malformed) (s : ServerState) :
    (login b s).1.sessions =
      (mkToken (bodyUserId b) s.clock,
        ⟨bodyUserId b, bodyDeviceId b, decStr (s.clock + 1)⟩) :: s.sessions := by
  cases hold : List.lookup (bodyUserId b) s.users <;>
    rw [login_eq hb s, hold] <;> rfl

theorem login_users_of_some {b : Body} (hb : b ≠ .malformed) {s : ServerState}
    {u : UserRec} (hu : List.lookup (bodyUserId b) s.users = some u) :
    (login b s).1.users = s.users := by
  rw [login_eq hb s, hu]
  rfl

theorem login_users_of_none {b : Body} (hb : b ≠ .malformed) {s : ServerState}
    (hu : List.lookup (bodyUserId b) s.users = none) :
    (login b s).1.users =
      (bodyUserId b,
        ⟨bodyUserId b, bodyDeviceId b, decStr (s.clock + 2), 1, 1000, []⟩)
        :: s.users := by
  rw [login_eq hb s, hu]
  rfl

theorem login_clock_lt {b : Body} (hb : b ≠ .malformed) (s : ServerState) :
    s.clock < (login b s).1.clock := by
  cases hold : List.lookup (bodyUserId b) s.users <;>
    rw [login_eq hb s, hold] <;> simp [loginResult]

/-- The response of a non-rejected `login`: status 200, `success=true`, and
a `data` object carrying the minted token and the stored user record. -/
theorem login_resp_fields {b : Body} (hb : b ≠ .malformed) (s : ServerState) :
    ∃ u : UserRec,
      List.lookup (bodyUserId b) (login b s).1.users = some u ∧
      (login b s).2.status = 200 ∧
      (login b s).2.successField = some (.bool true) ∧
      (login b s).2.dataField =
        some (.obj [("session_token", .str (mkToken (bodyUserId b) s.clock)),
          ("user", userJson u)]) := by
  cases hold : List.lookup (bodyUserId b) s.users with
  | some u =>
    refine ⟨u, ?_, ?_, ?_, ?_⟩ <;> rw [login_eq hb s, hold]
    · exact hold
    · rfl
    · rfl
    · simp [loginResult, Resp.dataField, lookup_data_create_response, truthy]
  | none =>
    refine ⟨⟨bodyUserId b, bodyDeviceId b, decStr (s.clock + 2), 1, 1000, []⟩,
      ?_, ?_, ?_, ?_⟩ <;> rw [login_eq hb s, hold]
    · exact lookup_cons_self _ _ _
    · rfl
    · rfl
    · simp [loginResult, Resp.dataField, lookup_data_create_response, truthy]

/-! ### The reachability invariant -/

theorem lookup_cons_exists {k a : String} {v : UserRec}
    {l : List (String × UserRec)} (h : ∃ w, List.lookup k l = some w) :
    ∃ w, List.lookup k ((a, v) :: l) = some w := by
  by_cases hk : k = a
  · subst hk; exact ⟨v, lookup_cons_self _ _ _⟩
  · obtain ⟨w, hw⟩ := h
    exact ⟨w, by rw [lookup_cons_ne hk, hw]⟩

theorem login_preserves_inv {b : Body} {s : ServerState}
    (hwf : StoreWF s.users) (hok : SessionsOK s) :
    StoreWF (login b s).1.users ∧ SessionsOK (login b s).1 := by
  by_cases hb : b = .malformed
  · subst hb; exact ⟨hwf, hok⟩
  constructor
  · -- StoreWF is preserved
    cases h : List.lookup (bodyUserId b) s.users with
    | some u => rw [login_users_of_some hb h]; exact hwf
    | none =>
      rw [login_users_of_none hb h]
      intro k u hk
      by_cases hke : k = bodyUserId b
      · subst hke
        rw [lookup_cons_self] at hk
        cases hk
        rfl
      · rw [lookup_cons_ne hke] at hk
        exact hwf k u hk
  · -- SessionsOK is preserved
    intro tok sess htok
    rw [login_sessions hb] at htok
    obtain ⟨u, hu, -⟩ := login_resp_fields hb s
    by_cases hte : tok = mkToken (bodyUserId b) s.clock
    · subst hte
      rw [lookup_cons_self] at htok
      cases htok
      exact ⟨u, hu⟩
    · rw [lookup_cons_ne hte] at htok
      obtain ⟨u0, hu0⟩ := hok tok sess htok
      cases h : List.lookup (bodyUserId b) s.users with
      | some u1 => rw [login_users_of_some hb h]; exact ⟨u0, hu0⟩
      | none =>
        rw [login_users_of_none hb h]
        exact lookup_cons_exists ⟨u0, hu0⟩

theorem session_fst (a : String) (s : ServerState) :
    (session a s).1 = { s with clock := s.clock + 1 } := by
  unfold session
  cases h : List.lookup (extractToken a) s.sessions <;> simp [h, respond]

theorem user_profile_fst (a : String) (s : ServerState) :
    (user_profile a s).1 = { s with clock := s.clock + 1 } := by
  unfold user_profile
  cases h : List.lookup (extractToken a) s.sessions <;> simp [h, respond]

/-- The combined store invariant holds in every reachable state. -/
theorem reachable_inv {s : ServerState} (h : Reachable s) :
    StoreWF s.users ∧ SessionsOK s := by
  induction h with
  | init =>
    constructor
    · intro k u hk; simp [List.lookup] at hk
    · intro tok sess htok; simp [initState, List.lookup] at htok
  | @step s s' r resp _ hd ih =>
    unfold dispatch at hd
    split_ifs at hd
    · have hs : (home s).1 = s' := congrArg Prod.fst (Option.some.inj hd)
      subst hs; exact ih
    · have hs : (health s).1 = s' := congrArg Prod.fst (Option.some.inj hd)
      subst hs; exact ih
    · have hs : (login r.body s).1 = s' :=
        congrArg Prod.fst (Option.some.inj hd)
      subst hs; exact login_preserves_inv ih.1 ih.2
    · have hs : (session r.auth s).1 = s' :=
        congrArg Prod.fst (Option.some.inj hd)
      subst hs; rw [session_fst]; exact ih
    · have hs : (game_start s).1 = s' := congrArg Prod.fst (Option.some.inj hd)
      subst hs; exact ih
    · have hs : (user_profile r.auth s).1 = s' :=
        congrArg Prod.fst (Option.some.inj hd)
      subst hs; rw [user_profile_fst]; exact ih
    · have hs : (catch_all (r.path.drop 1) s).1 = s' :=
        congrArg Prod.fst (Option.some.inj hd)
      subst hs; exact ih

/-! ### Spec-side definitions (for refinement comparisons) -/

/-- Modelled from the spec's words for the claim about `create_response`:
the `data` argument is "non-empty/non-null" (null excluded, empty
containers and empty strings excluded; numbers and booleans are neither
empty nor null). -/
def nonEmptyNonNull : Json → Bool
  | .null => false
  | .bool _ => true
  | .num _ => true
  | .str s => !s.isEmpty
  | .arr l => !l.isEmpty
  | .obj l => !l.isEmpty

/-- Modelled from the spec's words for the token-extraction claim: strip a
single leading `Bearer ` prefix if present, otherwise leave the header
value unchanged. -/
def specStripSingle (h : String) : String :=
  match h.data with
  | 'B' :: 'e' :: 'a' :: 'r' :: 'e' :: 'r' :: ' ' :: rest => String.mk rest
  | _ => h

/-- `bodyUserId` on a parsed JSON object, phrased as the claimed cascade:
the body's `user_id` field, else its `device_id` field, else `"unknown"`. -/
theorem bodyUserId_json (fields : List (String × String)) :
    bodyUserId (.json fields) =
      (match List.lookup "user_id" fields with
       | some v => v
       | none =>
         match List.lookup "device_id" fields with
         | some v => v
         | none => "unknown") := by
  show getD fields "user_id" (getD fields "device_id" "unknown") = _
  unfold getD
  cases h1 : List.lookup "user_id" fields <;>
    cases h2 : List.lookup "device_id" fields <;> simp [h1, h2]

theorem storeWF_nil : StoreWF [] := by
  intro k u h
  simp [List.lookup] at h

/-! ### Claim C2 -/

/-- Claim C2 (confirmed): any request whose method/path combination matches
no named route (and whose path is not the bare root, which the
`/<path:path>` converter cannot match) is dispatched to `catch_all`, and
the response has HTTP status 200 and `success=true`. -/
theorem c2_catch_all_always_success (r : Request) (s : ServerState)
    (hnamed : namedMatch r.method r.path = false) (hroot : r.path ≠ "/") :
    ∃ st resp, dispatch r s = some (st, resp) ∧ resp.status = 200 ∧
      resp.successField = some (.bool true) := by
  refine ⟨(catch_all (r.path.drop 1) s).1, (catch_all (r.path.drop 1) s).2,
    ?_, rfl, rfl⟩
  unfold dispatch
  simp only [namedMatch, Bool.or_eq_false_iff] at hnamed
  obtain ⟨⟨⟨⟨⟨h1, h2⟩, h3⟩, h4⟩, h5⟩, h6⟩ := hnamed
  simp [h1, h2, h3, h4, h5, h6, hroot]

/-- Witness for C2 at the concrete request `GET /foo/bar/baz`. -/
theorem c2_witness :
    namedMatch .GET "/foo/bar/baz" = false ∧ ("/foo/bar/baz" : String) ≠ "/" ∧
    ∃ st resp,
      dispatch ⟨.GET, "/foo/bar/baz", .noJson, ""⟩ initState =
        some (st, resp) ∧
      resp.status = 200 ∧ resp.successField = some (.bool true) :=
  ⟨rfl, by decide,
    c2_catch_all_always_success ⟨.GET, "/foo/bar/baz", .noJson, ""⟩ initState
      rfl (by decide)⟩

/-! ### Claim C9 -/

/-- Claim C9 counterexample: the integer `0` is neither empty nor null, yet
`create_response` omits the `data` field for it (`if data:` tests Python
truthiness, and `0` is falsy). -/
theorem c9_counterexample :
    nonEmptyNonNull (.num 0) = true ∧
    List.lookup "data" (create_response true (.num 0) "" 0) = none :=
  ⟨rfl, rfl⟩

/-- Claim C9 (amended): for every success flag, message and data argument,
the envelope holds exactly `success`, `timestamp`, `message`, plus `data`
if and only if the data argument is truthy in Python's sense (so null,
false, zero, and empty strings/arrays/objects are omitted). -/
theorem c9_envelope_shape (success : Bool) (data : Json) (message : String)
    (t : Nat) :
    (create_response success data message t).map Prod.fst =
      ["success", "timestamp", "message"] ++
        (if truthy data then ["data"] else []) ∧
    List.lookup "success" (create_response success data message t) =
      some (.bool success) ∧
    List.lookup "timestamp" (create_response success data message t) =
      some (.str (decStr t)) ∧
    List.lookup "message" (create_response success data message t) =
      some (.str message) ∧
    List.lookup "data" (create_response success data message t) =
      (if truthy data then some data else none) := by
  refine ⟨?_, rfl, rfl, rfl, lookup_data_create_response success data message t⟩
  by_cases h : truthy data <;> simp [create_response, h]

/-! ### Claim C3 -/

/-- Claim C3 (confirmed): for every JSON object body, the user record in
the login response has `user_id` equal to the body's `user_id` field, or
its `device_id` field when `user_id` is absent, or `"unknown"` when both
are absent. (The store hypothesis holds in every reachable state.) -/
theorem c3_login_user_id (s : ServerState) (fields : List (String × String))
    (hwf : StoreWF s.users) :
    ∃ u : UserRec,
      (login (.json fields) s).2.dataField =
        some (.obj [("session_token",
          .str (mkToken (bodyUserId (.json fields)) s.clock)),
          ("user", userJson u)]) ∧
      u.user_id =
        (match List.lookup "user_id" fields with
         | some v => v
         | none =>
           match List.lookup "device_id" fields with
           | some v => v
           | none => "unknown") := by
  have hb : (Body.json fields) ≠ .malformed := by simp
  obtain ⟨u, hu, -, -, hdata⟩ := login_resp_fields hb s
  refine ⟨u, hdata, ?_⟩
  rw [← bodyUserId_json]
  cases h0 : List.lookup (bodyUserId (.json fields)) s.users with
  | some u0 =>
    rw [login_users_of_some hb h0] at hu
    exact hwf _ u hu
  | none =>
    rw [login_users_of_none hb h0, lookup_cons_self] at hu
    cases hu
    rfl

/-- Witness for C3 at the empty store and body `{"user_id": "p1"}`. -/
theorem c3_witness :
    StoreWF initState.users ∧
    ∃ u : UserRec,
      (login (.json [("user_id", "p1")]) initState).2.dataField =
        some (.obj [("session_token",
          .str (mkToken (bodyUserId (.json [("user_id", "p1")]))
            initState.clock)),
          ("user", userJson u)]) ∧
      u.user_id =
        (match List.lookup "user_id" [("user_id", "p1")] with
         | some v => v
         | none =>
           match List.lookup "device_id" [("user_id", "p1")] with
           | some v => v
           | none => "unknown") :=
  ⟨storeWF_nil, c3_login_user_id initState [("user_id", "p1")] storeWF_nil⟩

/-! ### Claim C6 -/

/-- Claim C6 counterexample: a request body with a JSON content type that
fails to parse is not absorbed by defaults: Flask's `request.get_json()`
aborts the request with a bare 400 error, with no success envelope. -/
theorem c6_counterexample :
    (login .malformed initState).2.status = 400 ∧
    (login .malformed initState).2.successField = none :=
  ⟨rfl, rfl⟩

/-- Claim C6 (amended): an absent body or one without a JSON content type
is absorbed via defaults (`user_id` becomes `"unknown"`) and every parsed
JSON object body succeeds with 200/`success=true`; but a body with a JSON
content type that fails to parse is rejected by the framework with 400. -/
theorem c6_login_error_handling (s : ServerState) (hwf : StoreWF s.users) :
    ((login .noJson s).2.status = 200 ∧
     (login .noJson s).2.successField = some (.bool true) ∧
     ∃ u : UserRec,
       (login .noJson s).2.dataField =
         some (.obj [("session_token", .str (mkToken "unknown" s.clock)),
           ("user", userJson u)]) ∧
       u.user_id = "unknown") ∧
    (∀ fields, (login (.json fields) s).2.status = 200 ∧
      (login (.json fields) s).2.successField = some (.bool true)) ∧
    (login .malformed s).2.status = 400 := by
  refine ⟨?_, ?_, rfl⟩
  · have hb : (Body.noJson : Body) ≠ .malformed := by simp
    obtain ⟨u, hu, hst, hsucc, hdata⟩ := login_resp_fields hb s
    refine ⟨hst, hsucc, u, hdata, ?_⟩
    cases h0 : List.lookup (bodyUserId .noJson) s.users with
    | some u0 =>
      rw [login_users_of_some hb h0] at hu
      exact hwf _ u hu
    | none =>
      rw [login_users_of_none hb h0, lookup_cons_self] at hu
      cases hu
      rfl
  · intro fields
    have hb : (Body.json fields) ≠ .malformed := by simp
    obtain ⟨u, -, hst, hsucc, -⟩ := login_resp_fields hb s
    exact ⟨hst, hsucc⟩

/-- Witness for C6 at the empty store. -/
theorem c6_witness :
    StoreWF initState.users ∧
    ((login .noJson initState).2.status = 200 ∧
     (login .noJson initState).2.successField = some (.bool true) ∧
     ∃ u : UserRec,
       (login .noJson initState).2.dataField =
         some (.obj [("session_token",
           .str (mkToken "unknown" initState.clock)),
           ("user", userJson u)]) ∧
       u.user_id = "unknown") ∧
    (∀ fields, (login (.json fields) initState).2.status = 200 ∧
      (login (.json fields) initState).2.successField = some (.bool true)) ∧
    (login .malformed initState).2.status = 400 :=
  ⟨storeWF_nil, c6_login_error_handling initState storeWF_nil⟩

/-! ### Claim C4 -/

/-- Claim C4 (confirmed): two consecutive logins deriving the same
`user_id` return different session tokens but the identical user record,
and the second call leaves the user store unchanged. -/
theorem c4_login_twice (s : ServerState) (b1 b2 : Body)
    (hb1 : b1 ≠ .malformed) (hb2 : b2 ≠ .malformed)
    (hsame : bodyUserId b1 = bodyUserId b2) :
    ∃ (tok1 tok2 : String) (u : UserRec),
      (login b1 s).2.dataField =
        some (.obj [("session_token", .str tok1), ("user", userJson u)]) ∧
      (login b2 (login b1 s).1).2.dataField =
        some (.obj [("session_token", .str tok2), ("user", userJson u)]) ∧
      tok1 ≠ tok2 ∧
      (login b2 (login b1 s).1).1.users = (login b1 s).1.users := by
  obtain ⟨u, hu1, -, -, hd1⟩ := login_resp_fields hb1 s
  have hu1b : List.lookup (bodyUserId b2) (login b1 s).1.users = some u := by
    rw [← hsame]; exact hu1
  obtain ⟨u2, hu2, -, -, hd2⟩ := login_resp_fields hb2 (login b1 s).1
  have husers : (login b2 (login b1 s).1).1.users = (login b1 s).1.users :=
    login_users_of_some hb2 hu1b
  rw [husers] at hu2
  have hueq : u2 = u := Option.some.inj (hu1b.symm.trans hu2).symm
  rw [hueq] at hd2
  refine ⟨mkToken (bodyUserId b1) s.clock,
    mkToken (bodyUserId b2) (login b1 s).1.clock, u, hd1, hd2, ?_, husers⟩
  intro heq
  rw [hsame] at heq
  have hck := mkToken_inj_t heq
  have hlt := login_clock_lt hb1 s
  omega

/-- Witness for C4: logging in twice as `p1` from the empty state. -/
theorem c4_witness :
    (Body.json [("user_id", "p1")] ≠ Body.malformed) ∧
    bodyUserId (.json [("user_id", "p1")]) =
      bodyUserId (.json [("user_id", "p1")]) ∧
    ∃ (tok1 tok2 : String) (u : UserRec),
      (login (.json [("user_id", "p1")]) initState).2.dataField =
        some (.obj [("session_token", .str tok1), ("user", userJson u)]) ∧
      (login (.json [("user_id", "p1")])
        (login (.json [("user_id", "p1")]) initState).1).2.dataField =
        some (.obj [("session_token", .str tok2), ("user", userJson u)]) ∧
      tok1 ≠ tok2 ∧
      (login (.json [("user_id", "p1")])
        (login (.json [("user_id", "p1")]) initState).1).1.users =
        (login (.json [("user_id", "p1")]) initState).1.users :=
  ⟨by decide, rfl,
    c4_login_twice initState _ _ (by decide) (by decide) rfl⟩

/-! ### Claim C7 -/

/-- Claim C7 counterexample: on the header `aBearer b` the code's
extraction removes the interior occurrence (yielding `ab`), while the
claimed single-leading-prefix rule leaves the header unchanged. -/
theorem c7_counterexample :
    extractToken "aBearer b" = "ab" ∧
    specStripSingle "aBearer b" = "aBearer b" ∧
    extractToken "aBearer b" ≠ specStripSingle "aBearer b" :=
  ⟨rfl, rfl, by decide⟩

/-- Claim C7 (amended): the extraction removes every non-overlapping
occurrence of `Bearer `; in particular a header with no occurrence is
unchanged, and a single leading prefix before an occurrence-free token is
stripped. -/
theorem c7_extract_strips_all (t : String) (h : hasBearer t.data = false) :
    extractToken t = t ∧ extractToken ("Bearer " ++ t) = t :=
  ⟨extractToken_of_not_hasBearer h, extractToken_bearer_prefix h⟩

/-- Witness for C7 at the occurrence-free token `tok123`. -/
theorem c7_witness :
    hasBearer ("tok123" : String).data = false ∧
    (extractToken "tok123" = "tok123" ∧
     extractToken ("Bearer " ++ "tok123") = "tok123") :=
  ⟨by decide, c7_extract_strips_all "tok123" (by decide)⟩

/-! ### Claim C5 -/

/-- Claim C5 counterexample: the token `session_aBearer b_0` was never
issued (it is not a key of the session store), yet a session check with it
succeeds with HTTP 200, because stripping every `Bearer ` occurrence turns
it into the issued token `session_ab_0`. -/
theorem c5_counterexample :
    List.lookup "session_aBearer b_0"
      (login (.json [("user_id", "ab")]) initState).1.sessions = none ∧
    (session "session_aBearer b_0"
      (login (.json [("user_id", "ab")]) initState).1).2.status = 200 ∧
    (session "session_aBearer b_0"
      (login (.json [("user_id", "ab")]) initState).1).2.successField =
      some (.bool true) :=
  ⟨rfl, rfl, rfl⟩

/-- Claim C5 (amended): whenever the Authorization header's
`Bearer `-stripped value is not a key of the session store (in particular
for a missing header), the session check responds 401/`success=false` with
message `Invalid session`, and the profile route responds
401/`success=false` with message `Unauthorized`. -/
theorem c5_unknown_token_rejected (s : ServerState) (h : String)
    (hnone : List.lookup (extractToken h) s.sessions = none) :
    (session h s).2.status = 401 ∧
    (session h s).2.successField = some (.bool false) ∧
    (session h s).2.messageField = some (.str "Invalid session") ∧
    (user_profile h s).2.status = 401 ∧
    (user_profile h s).2.successField = some (.bool false) ∧
    (user_profile h s).2.messageField = some (.str "Unauthorized") := by
  simp only [session, user_profile, hnone]
  exact ⟨rfl, rfl, rfl, rfl, rfl, rfl⟩

/-- Witness for C5 at the empty store and a missing Authorization header. -/
theorem c5_witness :
    List.lookup (extractToken "") initState.sessions = none ∧
    ((session "" initState).2.status = 401 ∧
     (session "" initState).2.successField = some (.bool false) ∧
     (session "" initState).2.messageField = some (.str "Invalid session") ∧
     (user_profile "" initState).2.status = 401 ∧
     (user_profile "" initState).2.successField = some (.bool false) ∧
     (user_profile "" initState).2.messageField =
       some (.str "Unauthorized")) :=
  ⟨rfl, c5_unknown_token_rejected initState "" rfl⟩

/-! ### Claim C10 -/

/-- Claim C10 counterexample: the issued token `session_Bearer x_0`
(minted for user `Bearer x`) does not authenticate when sent raw, because
the extraction mangles its interior `Bearer ` occurrence. -/
theorem c10_counterexample :
    (∃ sess, List.lookup "session_Bearer x_0"
      (login (.json [("user_id", "Bearer x")]) initState).1.sessions =
        some sess) ∧
    (session "session_Bearer x_0"
      (login (.json [("user_id", "Bearer x")]) initState).1).2.status = 401 ∧
    (session "session_Bearer x_0"
      (login (.json [("user_id", "Bearer x")]) initState).1).2.successField =
      some (.bool false) ∧
    (user_profile "session_Bearer x_0"
      (login (.json [("user_id", "Bearer x")]) initState).1).2.status = 401 ∧
    (user_profile "session_Bearer x_0"
      (login (.json [("user_id", "Bearer x")])
        initState).1).2.successField = some (.bool false) :=
  ⟨⟨⟨"Bearer x", "unknown", "1"⟩, rfl⟩, rfl, rfl, rfl, rfl⟩

/-- Claim C10 (amended): any stored session token with no interior
`Bearer ` occurrence authenticates when sent raw, on both protected
routes. -/
theorem c10_raw_token_authenticates (s : ServerState) (tok : String)
    (sess : SessionRec) (hs : List.lookup tok s.sessions = some sess)
    (hnb : hasBearer tok.data = false) :
    (session tok s).2.status = 200 ∧
    (session tok s).2.successField = some (.bool true) ∧
    (user_profile tok s).2.status = 200 ∧
    (user_profile tok s).2.successField = some (.bool true) := by
  have hext : extractToken tok = tok := extractToken_of_not_hasBearer hnb
  simp only [session, user_profile, hext, hs]
  exact ⟨rfl, rfl, rfl, rfl⟩

/-- Witness for C10 at the token issued by a login as `p1`. -/
theorem c10_witness :
    List.lookup "session_p1_0"
      (login (.json [("user_id", "p1")]) initState).1.sessions =
      some ⟨"p1", "unknown", "1"⟩ ∧
    hasBearer ("session_p1_0" : String).data = false ∧
    ((session "session_p1_0"
        (login (.json [("user_id", "p1")]) initState).1).2.status = 200 ∧
     (session "session_p1_0"
        (login (.json [("user_id", "p1")]) initState).1).2.successField =
        some (.bool true) ∧
     (user_profile "session_p1_0"
        (login (.json [("user_id", "p1")]) initState).1).2.status = 200 ∧
     (user_profile "session_p1_0"
        (login (.json [("user_id", "p1")]) initState).1).2.successField =
        some (.bool true)) :=
  ⟨rfl, by decide,
    c10_raw_token_authenticates _ "session_p1_0" ⟨"p1", "unknown", "1"⟩
      rfl (by decide)⟩

/-! ### Claim C1 -/

/-- Claim C1 counterexample: a login whose derived user id contains
`Bearer ` mints a token the subsequent session check cannot match — the
extraction removes the interior occurrence, so the check returns 401. -/
theorem c1_counterexample :
    (login (.json [("user_id", "Bearer x")]) initState).2.dataField =
      some (.obj [("session_token", .str "session_Bearer x_0"),
        ("user", userJson ⟨"Bearer x", "unknown", "2", 1, 1000, []⟩)]) ∧
    (session ("Bearer " ++ "session_Bearer x_0")
      (login (.json [("user_id", "Bearer x")]) initState).1).2.status = 401 ∧
    (session ("Bearer " ++ "session_Bearer x_0")
      (login (.json [("user_id", "Bearer x")]) initState).1).2.successField =
      some (.bool false) :=
  ⟨rfl, rfl, rfl⟩

/-- Claim C1 (amended): after a login whose minted token contains no
`Bearer ` occurrence, a session check with header `Bearer ` ++ token
returns 200/`success=true` and the same user record the login returned. -/
theorem c1_login_then_session_check (s : ServerState)
    (fields : List (String × String))
    (hnb : hasBearer
      (mkToken (bodyUserId (.json fields)) s.clock).data = false) :
    ∃ (tok : String) (u : UserRec),
      (login (.json fields) s).2.dataField =
        some (.obj [("session_token", .str tok), ("user", userJson u)]) ∧
      (session ("Bearer " ++ tok)
        (login (.json fields) s).1).2.status = 200 ∧
      (session ("Bearer " ++ tok)
        (login (.json fields) s).1).2.successField = some (.bool true) ∧
      ∃ sess : SessionRec,
        (session ("Bearer " ++ tok)
          (login (.json fields) s).1).2.dataField =
          some (.obj [("session", sessionJson sess),
            ("user", userJson u)]) := by
  have hb : (Body.json fields) ≠ .malformed := by simp
  obtain ⟨u, hu, -, -, hdata⟩ := login_resp_fields hb s
  refine ⟨mkToken (bodyUserId (.json fields)) s.clock, u, hdata, ?_⟩
  have hext : extractToken
      ("Bearer " ++ mkToken (bodyUserId (.json fields)) s.clock) =
      mkToken (bodyUserId (.json fields)) s.clock :=
    extractToken_bearer_prefix hnb
  have hlook : List.lookup (mkToken (bodyUserId (.json fields)) s.clock)
      (login (.json fields) s).1.sessions =
      some ⟨bodyUserId (.json fields), bodyDeviceId (.json fields),
        decStr (s.clock + 1)⟩ := by
    rw [login_sessions hb]
    exact lookup_cons_self _ _ _
  simp only [session, hext, hlook, hu]
  exact ⟨rfl, rfl,
    ⟨bodyUserId (.json fields), bodyDeviceId (.json fields),
      decStr (s.clock + 1)⟩, rfl⟩

/-- Witness for C1: login as `p1` from the empty state, then check the
returned token with a `Bearer ` prefix. -/
theorem c1_witness :
    hasBearer (mkToken (bodyUserId (.json [("user_id", "p1")]))
      initState.clock).data = false ∧
    ∃ (tok : String) (u : UserRec),
      (login (.json [("user_id", "p1")]) initState).2.dataField =
        some (.obj [("session_token", .str tok), ("user", userJson u)]) ∧
      (session ("Bearer " ++ tok)
        (login (.json [("user_id", "p1")]) initState).1).2.status = 200 ∧
      (session ("Bearer " ++ tok)
        (login (.json [("user_id", "p1")])
          initState).1).2.successField = some (.bool true) ∧
      ∃ sess : SessionRec,
        (session ("Bearer " ++ tok)
          (login (.json [("user_id", "p1")]) initState).1).2.dataField =
          some (.obj [("session", sessionJson sess),
            ("user", userJson u)]) :=
  ⟨by decide,
    c1_login_then_session_check initState [("user_id", "p1")] (by decide)⟩

/-! ### Claim C8 -/

/-- Claim C8 (confirmed): in every state reachable from the empty stores
by complete handler calls, every stored session's `user_id` is a key of
the user store. -/
theorem c8_sessions_have_users {s : ServerState} (h : Reachable s) :
    SessionsOK s :=
  (reachable_inv h).2

/-- Witness for C8 at the state reached by one login. -/
theorem c8_witness :
    SessionsOK (login (.json [("user_id", "p1")]) initState).1 := by
  have hstep : dispatch ⟨.POST, "/login", .json [("user_id", "p1")], ""⟩
      initState =
      some ((login (.json [("user_id", "p1")]) initState).1,
        (login (.json [("user_id", "p1")]) initState).2) := rfl
  exact c8_sessions_have_users (Reachable.step Reachable.init hstep)

end Servers
